import Mathlib

set_option maxRecDepth 8000

/-!
Shallow embedding of the motoPlayer bus-protocol core.

Peripheral node: motoUNO/src/main.cpp (I2C slave, RFID + DHT sampling,
single-slot command channel, DFPlayer dispatch).
Coordinator node: motoMCU/src/main.cpp (I2C master poll, link-health
state machine, telemetry snapshot, interval-gated tasks).

Machine bytes are modelled as Nat values (callers keep them < 256, as the
C byte type does by construction); int16_t values are modelled as Int with
explicit two's-complement reduction mod 2^16 where the code casts; float
arithmetic on the decoded telemetry values is modelled exactly over Rat.
-/

/-- I2C_PACKET_SIZE constant of motoUNO/src/main.cpp. -/
def I2C_PACKET_SIZE : Nat := 10

/-- FLAG_IDLE constant (0x00). -/
def FLAG_IDLE : Nat := 0

/-- FLAG_RFID_NEW constant (0x01). -/
def FLAG_RFID_NEW : Nat := 1

/-- FLAG_ENV_NEW constant (0x02). -/
def FLAG_ENV_NEW : Nat := 2

/-- The peripheral's shared globals from motoUNO/src/main.cpp: the single
shared frame buffer `payload[I2C_PACKET_SIZE]`, the two per-kind pending
flags, and the single-slot command channel (`IsCMD`, `command_to_run`,
`command_param`).  The interval-gate timer variables are not part of the
queue/command state and are modelled separately (see `gatedTick`). -/
structure PeriphState where
  payload : List Nat
  newCardDataAvailable : Bool
  newENVDataAvailable : Bool
  IsCMD : Bool
  command_to_run : Nat
  command_param : Nat
deriving DecidableEq

/-- Initial peripheral globals: C zero-initialised statics. -/
def initPeriphState : PeriphState :=
  { payload := List.replicate I2C_PACKET_SIZE 0
    newCardDataAvailable := false
    newENVDataAvailable := false
    IsCMD := false
    command_to_run := 0
    command_param := 0 }

/-- Body of handleRFID after its interval gate.  `cardRead` is the outcome of
PICC_IsNewCardPresent && PICC_ReadCardSerial: `none` when no card was read,
`some uid` with the UID bytes otherwise.  The code first returns if
`newCardDataAvailable` is already set, then (on a read with uid.size > 0)
writes FLAG_RFID_NEW into payload[0] and the UID bytes zero-padded into
payload[1..9] and raises the flag. -/
def handleRFID (cardRead : Option (List Nat)) (s : PeriphState) : PeriphState :=
  if s.newCardDataAvailable then s
  else
    match cardRead with
    | none => s
    | some uid =>
      if 0 < uid.length then
        { s with
          payload := FLAG_RFID_NEW ::
            (List.range (I2C_PACKET_SIZE - 1)).map
              (fun i => if i < uid.length then uid.getD i 0 else 0)
          newCardDataAvailable := true }
      else s

/-- Two's-complement representation of an int16_t value as 0..65535,
as produced by the byte-extraction casts in handleENVSensor. -/
def toU16 (v : Int) : Nat := (v.emod 65536).toNat

/-- Models `(byte)(x >> 8)` on an int16_t whose two's-complement
representation is `u`. -/
def hiByte (u : Nat) : Nat := u / 256

/-- Models `(byte)(x & 0xFF)`. -/
def loByte (u : Nat) : Nat := u % 256

/-- Body of handleENVSensor after its interval gate.  `reading` is the sensor
outcome: `none` models an isnan DHT read (the body logs and returns without
touching the queue); `some (tempRaw, humid, lightRaw)` carries the already
cast values `int16_t(temp_f * 10)`, `(byte)humid_f` and `int16_t(light_i)`.
The code first returns if `newENVDataAvailable` is already set, then writes
FLAG_ENV_NEW, the big-endian temperature bytes, the humidity byte, the
big-endian light bytes and zero padding into the shared payload buffer and
raises the flag. -/
def handleENVSensor (reading : Option (Int × Nat × Int)) (s : PeriphState) :
    PeriphState :=
  if s.newENVDataAvailable then s
  else
    match reading with
    | none => s
    | some (tempRaw, humid, lightRaw) =>
      { s with
        payload := [FLAG_ENV_NEW,
          hiByte (toU16 tempRaw), loByte (toU16 tempRaw),
          humid % 256,
          hiByte (toU16 lightRaw), loByte (toU16 lightRaw),
          0, 0, 0, 0]
        newENVDataAvailable := true }

/-- The idle frame `byte idle_payload[I2C_PACKET_SIZE] = {FLAG_IDLE};`
(remaining bytes zero-initialised). -/
def idleFrame : List Nat := FLAG_IDLE :: List.replicate (I2C_PACKET_SIZE - 1) 0

/-- requestEvent (the onRequest callback, the peripheral's poll-response
producer): card slot first, then environment slot, else the idle frame.
Returns the 10 bytes written to the bus and the updated globals. -/
def requestEvent (s : PeriphState) : List Nat × PeriphState :=
  if s.newCardDataAvailable then
    (s.payload, { s with newCardDataAvailable := false })
  else if s.newENVDataAvailable then
    (s.payload, { s with newENVDataAvailable := false })
  else
    (idleFrame, s)

/-- receiveEvent (the onReceive callback): `bytes` are the bytes of one
command transaction.  An empty transaction returns immediately
(`Wire.available() < 1`).  Otherwise byte 0 is the command tag: for 'P' (80)
the next byte, if present in the transaction, is read into `command_param`;
for '+' (43) and '-' (45) the parameter is set to 0; any other tag reads no
parameter.  In every non-empty case the tag is stored into `command_to_run`
and `IsCMD` is raised. -/
def receiveEvent (bytes : List Nat) (s : PeriphState) : PeriphState :=
  match bytes with
  | [] => s
  | command :: rest =>
    let s1 :=
      if command = 80 then
        match rest with
        | p :: _ => { s with command_param := p }
        | [] => s
      else if command = 43 then
        { s with command_param := 0 }
      else if command = 45 then
        { s with command_param := 0 }
      else s
    { s1 with command_to_run := command, IsCMD := true }

/-- The actuator calls that handleCommands can make on the DFPlayer. -/
inductive DFPlayerAction where
  | play (track : Nat)
  | volumeUp
  | volumeDown
deriving DecidableEq

/-- handleCommands (the dispatch task): returns immediately when no command
is pending; otherwise performs the actuator action selected by the stored
tag (none for an unrecognised tag) and clears the pending flag. -/
def handleCommands (s : PeriphState) : Option DFPlayerAction × PeriphState :=
  if s.IsCMD = false then (none, s)
  else
    let act : Option DFPlayerAction :=
      if s.command_to_run = 80 then some (.play s.command_param)
      else if s.command_to_run = 43 then some .volumeUp
      else if s.command_to_run = 45 then some .volumeDown
      else none
    (act, { s with IsCMD := false })

/-- Lower-case hexadecimal digit, as Arduino String(value, HEX) renders
digits 0..15 ('0'..'9' then 'a'..'f'). -/
def hexDigit (n : Nat) : Char :=
  if n < 10 then Char.ofNat (48 + n) else Char.ofNat (87 + n)

/-- Arduino `String(b, HEX)` for a byte value b < 256: lower-case hex with
no leading zero (one digit when b < 16, two digits otherwise). -/
def natToHexLowerChars (b : Nat) : List Char :=
  if b < 16 then [hexDigit b]
  else [hexDigit (b / 16), hexDigit (b % 16)]

/-- One loop iteration of the UID rendering in handleI2CCommunication:
`uidString += (packetBuffer[i] < 0x10 ? "0" : ""); uidString +=
String(packetBuffer[i], HEX);`. -/
def byteHexLowerPadded (b : Nat) : List Char :=
  (if b < 16 then [Char.ofNat 48] else []) ++ natToHexLowerChars b

/-- The coordinator's UID rendering: the per-byte zero-padded lower-case hex
pieces concatenated in order, then `uidString.toUpperCase()` (which maps
each character to upper case). -/
def rfidHexString (idBytes : List Nat) : String :=
  String.mk (((idBytes.map byteHexLowerPadded).foldr (· ++ ·) []).map Char.toUpper)

/-- Canonical upper-case zero-padded two-digit hexadecimal rendering of a
byte, the form the specification describes. -/
def hexDigitUpper (n : Nat) : Char :=
  if n < 10 then Char.ofNat (48 + n) else Char.ofNat (55 + n)

/-- Canonical two-character upper-case rendering of one byte. -/
def byteHexUpperChars (b : Nat) : List Char :=
  [hexDigitUpper (b / 16), hexDigitUpper (b % 16)]

/-- Coordinator temperature decode in handleI2CCommunication:
`((packetBuffer[1] << 8) | packetBuffer[2]) / 10.0`.  The bytes are
reassembled with int arithmetic (no sign extension) and divided by 10. -/
def decodeTempC (b1 b2 : Nat) : ℚ := (((b1 <<< 8) ||| b2 : Nat) : ℚ) / 10

/-- Coordinator humidity decode: `(float)packetBuffer[3]`. -/
def decodeHumidity (b3 : Nat) : ℚ := (b3 : ℚ)

/-- Peripheral temperature encoding of the int16_t raw value `v` into frame
bytes 1 and 2: `payload[1] = (byte)(temp_i16 >> 8); payload[2] =
(byte)(temp_i16 & 0xFF);` (big-endian over the two's-complement
representation). -/
def encodeTempBytes (v : Int) : Nat × Nat := (hiByte (toU16 v), loByte (toU16 v))

/-- The coordinator globals touched by handleI2CCommunication
(motoMCU/src/main.cpp): the link flag, the last-seen card identifier and
the telemetry values. -/
structure CoordState where
  isUnoOnline : Bool
  lastRfidFromUno : String
  currentTemperature : ℚ
  currentHumidity : ℚ
  lightLevel : Nat
deriving DecidableEq

/-- Initial coordinator globals as declared in motoMCU/src/main.cpp. -/
def initCoordState : CoordState :=
  { isUnoOnline := false
    lastRfidFromUno := "N/A"
    currentTemperature := -999
    currentHumidity := 0
    lightLevel := 0 }

/-- The serial log lines the poll body can emit. -/
inductive LogEv where
  | linkOnline
  | linkLost
  | receivedRfid
  | receivedEnv
  | unknownFlag
deriving DecidableEq

/-- Body of handleI2CCommunication after its interval gate, for one poll.
`count` is the Wire.requestFrom return value (bytes received) and `frame`
the 10 bytes read when the count is right.  On `count = 10` the code logs
"I2C: Online." when the link was down, raises the link flag and dispatches
on the status flag byte: 0x00 returns, 0x01 stores the rendered UID, 0x02
stores the decoded telemetry, anything else logs the unknown-flag line.
On any other count it logs "I2C: Connection lost" when the link was up,
clears the link flag and resets the last-seen card identifier; the
telemetry fields are not touched.  The function is total: no error is
returned to the caller. -/
def i2cPollStep (s : CoordState) (count : Nat) (frame : List Nat) :
    CoordState × List LogEv :=
  if count = 10 then
    let onlineLogs := if s.isUnoOnline then [] else [LogEv.linkOnline]
    let s1 : CoordState := { s with isUnoOnline := true }
    let statusFlag := frame.getD 0 0
    if statusFlag = 0 then (s1, onlineLogs)
    else if statusFlag = 1 then
      ({ s1 with lastRfidFromUno := rfidHexString ((frame.drop 1).take 4) },
       onlineLogs ++ [LogEv.receivedRfid])
    else if statusFlag = 2 then
      ({ s1 with
          currentTemperature := decodeTempC (frame.getD 1 0) (frame.getD 2 0)
          currentHumidity := decodeHumidity (frame.getD 3 0)
          lightLevel := ((frame.getD 4 0) <<< 8) ||| frame.getD 5 0 },
       onlineLogs ++ [LogEv.receivedEnv])
    else (s1, onlineLogs ++ [LogEv.unknownFlag])
  else
    ({ s with isUnoOnline := false, lastRfidFromUno := "N/A" },
     if s.isUnoOnline then [LogEv.linkLost] else [])

/-- Run a sequence of polls, concatenating the emitted log lines. -/
def i2cRun (s : CoordState) (polls : List (Nat × List Nat)) :
    CoordState × List LogEv :=
  match polls with
  | [] => (s, [])
  | (c, f) :: rest =>
    let step := i2cPollStep s c f
    let tail := i2cRun step.1 rest
    (tail.1, step.2 ++ tail.2)

/-- The link-flag value after each poll of a sequence. -/
def linkTrace (s : CoordState) (polls : List (Nat × List Nat)) : List Bool :=
  match polls with
  | [] => []
  | (c, f) :: rest =>
    let s1 := (i2cPollStep s c f).1
    s1.isUnoOnline :: linkTrace s1 rest

/-- Number of edge transitions in a link-flag trace starting from `b`. -/
def transCount (b : Bool) : List Bool → Nat
  | [] => 0
  | x :: xs => (if x = b then 0 else 1) + transCount x xs

/-- The gain/loss lines of a log sequence (the edge-triggered lines the
specification counts). -/
def gainLossLogs (l : List LogEv) : List LogEv :=
  l.filter (fun e => e == LogEv.linkOnline || e == LogEv.linkLost)

/-- The poll-outcome sequence Ok, Err, Err, Ok: two well-formed 10-byte
polls around two failed polls (requestFrom returning 0 bytes). -/
def pollsOkErrErrOk : List (Nat × List Nat) :=
  [(10, idleFrame), (0, []), (0, []), (10, idleFrame)]

/-- The 32-bit wrap modulus of the millis() clock. -/
def W32 : Nat := 2 ^ 32

/-- Wraparound-safe unsigned subtraction `now - lastRun` as computed on
uint32 millis() values. -/
def sub32 (a b : Nat) : Nat := (a % W32 + (W32 - b % W32)) % W32

/-- One evaluation of an interval-gated task, as in handleWiFiReconnect and
handleI2CCommunication: `if (millis() - lastRun >= interval) { lastRun =
millis(); body(); }`.  Returns the new lastRun value and whether the body
ran. -/
def gatedTick (interval lastRun now : Nat) : Nat × Bool :=
  if interval ≤ sub32 now lastRun then (now, true) else (lastRun, false)

/-- The monotonic clock advancing in 100-unit ticks from phase t0,
reduced mod 2^32 as millis() wraps. -/
def clockAt (t0 n : Nat) : Nat := (t0 + 100 * n) % W32

/-- lastRun of a task with interval 500 after n ticks of the 100-unit
clock, starting from a run at phase t0. -/
def lastRunAfter (t0 : Nat) : Nat → Nat
  | 0 => t0
  | n + 1 => (gatedTick 500 (lastRunAfter t0 n) (clockAt t0 (n + 1))).1

/-- Whether the interval-500 task body ran on tick n of the 100-unit
clock. -/
def ranAt (t0 : Nat) : Nat → Bool
  | 0 => false
  | n + 1 => (gatedTick 500 (lastRunAfter t0 n) (clockAt t0 (n + 1))).2

/-- Claim C1.  The claim states that an offer never overwrites the stored
payload bytes of a pending unconsumed event of either kind.  The code
violates it: both kinds share the single global `payload` buffer, so an
environment offer made while a card event is pending rewrites the card
event's bytes (and the subsequent poll that consumes the card slot returns
the environment bytes).  This theorem evaluates the code at the failing
input: card UID DE AD BE EF offered, then an environment reading
(250, 50, 300) offered.  The same-kind half of the claim does hold: a
second card offer while the card slot is pending has no effect. -/
theorem c1_env_offer_overwrites_pending_card_payload :
    (handleRFID (some [222, 173, 190, 239]) initPeriphState).newCardDataAvailable
        = true ∧
    (handleRFID (some [222, 173, 190, 239]) initPeriphState).payload
        = [1, 222, 173, 190, 239, 0, 0, 0, 0, 0] ∧
    handleRFID (some [9, 9, 9, 9])
        (handleRFID (some [222, 173, 190, 239]) initPeriphState)
      = handleRFID (some [222, 173, 190, 239]) initPeriphState ∧
    (handleENVSensor (some (250, 50, 300))
        (handleRFID (some [222, 173, 190, 239]) initPeriphState)).newCardDataAvailable
      = true ∧
    (handleENVSensor (some (250, 50, 300))
        (handleRFID (some [222, 173, 190, 239]) initPeriphState)).payload
      = [2, 0, 250, 50, 1, 44, 0, 0, 0, 0] ∧
    ¬ (handleENVSensor (some (250, 50, 300))
        (handleRFID (some [222, 173, 190, 239]) initPeriphState)).payload
      = [1, 222, 173, 190, 239, 0, 0, 0, 0, 0] ∧
    (requestEvent (handleENVSensor (some (250, 50, 300))
        (handleRFID (some [222, 173, 190, 239]) initPeriphState))).1
      = [2, 0, 250, 50, 1, 44, 0, 0, 0, 0] := by
  decide

/-- Claim C2.  requestEvent does return the idle frame when no kind is
pending, and with both kinds pending it clears only the card slot and
leaves the environment slot pending — but the frame it returns is the
shared payload buffer, which after a card-then-environment offer sequence
holds the environment encoding, not the card event's kind tag and payload;
the following poll then returns the same environment frame a second time.
Evaluated at: card UID 12 34 56 78 offered, then environment reading
(215, 60, 512) offered. -/
theorem c2_both_pending_returns_env_frame_first :
    (requestEvent initPeriphState).1 = idleFrame ∧
    (handleENVSensor (some (215, 60, 512))
        (handleRFID (some [18, 52, 86, 120]) initPeriphState)).newCardDataAvailable
      = true ∧
    (handleENVSensor (some (215, 60, 512))
        (handleRFID (some [18, 52, 86, 120]) initPeriphState)).newENVDataAvailable
      = true ∧
    (requestEvent (handleENVSensor (some (215, 60, 512))
        (handleRFID (some [18, 52, 86, 120]) initPeriphState))).2.newCardDataAvailable
      = false ∧
    (requestEvent (handleENVSensor (some (215, 60, 512))
        (handleRFID (some [18, 52, 86, 120]) initPeriphState))).2.newENVDataAvailable
      = true ∧
    (requestEvent (handleENVSensor (some (215, 60, 512))
        (handleRFID (some [18, 52, 86, 120]) initPeriphState))).1
      = [2, 0, 215, 60, 2, 0, 0, 0, 0, 0] ∧
    ¬ (requestEvent (handleENVSensor (some (215, 60, 512))
        (handleRFID (some [18, 52, 86, 120]) initPeriphState))).1
      = [1, 18, 52, 86, 120, 0, 0, 0, 0, 0] ∧
    (requestEvent (requestEvent (handleENVSensor (some (215, 60, 512))
        (handleRFID (some [18, 52, 86, 120]) initPeriphState))).2).1
      = [2, 0, 215, 60, 2, 0, 0, 0, 0, 0] := by
  decide

/-- Claim C6: from any peripheral state, receiving a PlayTrack command with
track byte 5 and then a VolumeUp command, with no dispatch in between,
leaves exactly one pending command in the single slot: VolumeUp (tag 43,
parameter cleared to 0); the earlier play-track command is lost. -/
theorem c6_command_overwrite_last_writer_wins (s : PeriphState) :
    receiveEvent [43] (receiveEvent [80, 5] s) =
      { s with command_to_run := 43, command_param := 0, IsCMD := true } :=
  rfl

/-- Claim C8: a PlayTrack transaction that delivers only the tag byte
leaves the stored track parameter at its previous value while still making
the command pending with that stale parameter. -/
theorem c8_playtrack_without_param_keeps_stale_param (s : PeriphState) :
    receiveEvent [80] s = { s with command_to_run := 80, IsCMD := true } ∧
    (receiveEvent [80] s).command_param = s.command_param :=
  ⟨rfl, rfl⟩

/-- Claim C10: any received transaction, even with an unrecognised tag,
stores the tag in the single command slot and marks it pending (so an
unknown tag overwrites whatever was pending); the dispatch task performs no
actuator action for the unrecognised tag but still clears the pending
flag, and indeed one dispatch tick leaves the slot empty from any state. -/
theorem c10_unknown_tag_pending_then_cleared (s : PeriphState) (c : Nat)
    (rest : List Nat) (h1 : c ≠ 80) (h2 : c ≠ 43) (h3 : c ≠ 45) :
    (receiveEvent (c :: rest) s).IsCMD = true ∧
    (receiveEvent (c :: rest) s).command_to_run = c ∧
    (handleCommands (receiveEvent (c :: rest) s)).1 = none ∧
    (handleCommands (receiveEvent (c :: rest) s)).2.IsCMD = false ∧
    (∀ t : PeriphState, (handleCommands t).2.IsCMD = false) := by
  refine ⟨?_, ?_, ?_, ?_, ?_⟩
  · simp [receiveEvent, h1, h2, h3]
  · simp [receiveEvent, h1, h2, h3]
  · simp [receiveEvent, handleCommands, h1, h2, h3]
  · simp [receiveEvent, handleCommands, h1, h2, h3]
  · intro t
    by_cases ht : t.IsCMD = false <;> simp [handleCommands, ht]

/-- Witness for C10 at the concrete unknown tag 90 ('Z') received on the
initial state. -/
theorem c10_unknown_tag_pending_then_cleared_witness :
    (receiveEvent [90] initPeriphState).IsCMD = true ∧
    (receiveEvent [90] initPeriphState).command_to_run = 90 ∧
    (handleCommands (receiveEvent [90] initPeriphState)).1 = none ∧
    (handleCommands (receiveEvent [90] initPeriphState)).2.IsCMD = false := by
  have h := c10_unknown_tag_pending_then_cleared initPeriphState 90 []
    (by decide) (by decide) (by decide)
  exact ⟨h.1, h.2.1, h.2.2.1, h.2.2.2.1⟩

/-- Claim C3.  The positive instances hold (bytes 0x00 0xFA decode to 25.0,
humidity byte 0x32 decodes to 50), but the coordinator's decode reassembles
the two temperature bytes with plain int arithmetic and no sign extension,
so the peripheral's encoding of the negative raw value -5 (bytes 0xFF 0xFB)
decodes to 6553.1 degrees instead of -0.5: the claim's universally
quantified round trip fails for every negative v. -/
theorem c3_temperature_decode_drops_sign :
    encodeTempBytes (-5) = (255, 251) ∧
    decodeTempC 255 251 = 65531 / 10 ∧
    decodeTempC 255 251 ≠ -5 / 10 ∧
    decodeTempC (encodeTempBytes (-5)).1 (encodeTempBytes (-5)).2 ≠ -5 / 10 ∧
    decodeTempC 0 250 = 25 ∧
    decodeHumidity 50 = 50 := by
  have hb : (255 <<< 8 ||| 251 : Nat) = 65531 := by decide
  have hb2 : (0 <<< 8 ||| 250 : Nat) = 250 := by decide
  have he : encodeTempBytes (-5) = (255, 251) := by decide
  refine ⟨he, ?_, ?_, ?_, ?_, by norm_num [decodeHumidity]⟩
  · norm_num [decodeTempC, hb]
  · norm_num [decodeTempC, hb]
  · rw [he]
    norm_num [decodeTempC, hb]
  · norm_num [decodeTempC, hb2]

/-- Claim C5: a poll returning other than 10 bytes drives the link flag to
Offline and resets the last-seen card identifier to the "N/A" sentinel,
while the temperature, humidity and light fields keep their previous
values; the step is a total function (no error reaches a caller), and the
only output besides the new state is the edge-triggered loss log line. -/
theorem c5_malformed_length_resets_card_keeps_telemetry (s : CoordState)
    (count : Nat) (frame : List Nat) (h : count ≠ 10) :
    i2cPollStep s count frame =
      ({ isUnoOnline := false
         lastRfidFromUno := "N/A"
         currentTemperature := s.currentTemperature
         currentHumidity := s.currentHumidity
         lightLevel := s.lightLevel },
       if s.isUnoOnline then [LogEv.linkLost] else []) := by
  simp [i2cPollStep, h]

/-- Witness for C5: a failed poll (0 bytes) from an online state with
telemetry 25 degrees, 50 percent, light 300 and card "DEADBEEF". -/
theorem c5_malformed_length_witness :
    i2cPollStep ⟨true, "DEADBEEF", 25, 50, 300⟩ 0 [] =
      (⟨false, "N/A", 25, 50, 300⟩, [LogEv.linkLost]) := by
  have h := c5_malformed_length_resets_card_keeps_telemetry
    ⟨true, "DEADBEEF", 25, 50, 300⟩ 0 [] (by decide)
  simpa using h

/-- Counterexample to claim C4 as stated: from Offline, the poll-outcome
sequence Ok, Err, Err, Ok produces three link-state transitions and three
gain/loss log lines, so neither "exactly two transitions" nor "at most two
loss/gain log events" holds on the code. -/
theorem c4_counterexample_three_transitions_three_logs :
    transCount false (linkTrace initCoordState pollsOkErrErrOk) = 3 ∧
    (gainLossLogs (i2cRun initCoordState pollsOkErrErrOk).2).length = 3 ∧
    ¬ (transCount false (linkTrace initCoordState pollsOkErrErrOk) = 2 ∧
       (gainLossLogs (i2cRun initCoordState pollsOkErrErrOk).2).length ≤ 2) := by
  decide

/-- Claim C4 as amended: the sequence Ok, Err, Err, Ok from Offline yields
the link trace Online, Offline, Offline, Online — three edge-triggered
transitions and exactly three gain/loss log lines (not four: the repeated
Err adds none); and in general logging is edge-triggered: applying the
same poll outcome twice in succession produces no gain/loss line on the
second application, a gain line is emitted exactly on an
Offline-to-Online step and a loss line exactly on an Online-to-Offline
step. -/
theorem c4_edge_triggered_logging :
    (linkTrace initCoordState pollsOkErrErrOk = [true, false, false, true] ∧
     transCount false (linkTrace initCoordState pollsOkErrErrOk) = 3 ∧
     gainLossLogs (i2cRun initCoordState pollsOkErrErrOk).2
       = [LogEv.linkOnline, LogEv.linkLost, LogEv.linkOnline]) ∧
    (∀ (s : CoordState) (count : Nat) (frame : List Nat),
       gainLossLogs (i2cPollStep (i2cPollStep s count frame).1 count frame).2
         = []) ∧
    (∀ (s : CoordState) (count : Nat) (frame : List Nat),
       (LogEv.linkOnline ∈ (i2cPollStep s count frame).2 ↔
          s.isUnoOnline = false ∧ count = 10) ∧
       (LogEv.linkLost ∈ (i2cPollStep s count frame).2 ↔
          s.isUnoOnline = true ∧ ¬ count = 10)) := by
  refine ⟨by decide, ?_, ?_⟩
  · intro s count frame
    by_cases hc : count = 10 <;>
      simp [i2cPollStep, hc, gainLossLogs] <;>
      split_ifs <;>
      simp_all [gainLossLogs]
  · intro s count frame
    by_cases hc : count = 10 <;> cases hs : s.isUnoOnline <;>
      simp [i2cPollStep, hc, hs] <;>
      split_ifs <;>
      simp_all

/-- For every byte, upper-casing the code's zero-padded lower-case hex
piece yields the canonical upper-case two-digit rendering. -/
theorem byteHex_toUpper_eq :
    ∀ b : Nat, b < 256 →
      (byteHexLowerPadded b).map Char.toUpper = byteHexUpperChars b := by
  decide

/-- Claim C9: on every successfully decoded CardEvent frame the coordinator
stores, as the last-seen card identifier, the four identifier bytes
(frame bytes 1 to 4) rendered as upper-case zero-padded two-digit
hexadecimal concatenated in order. -/
theorem c9_card_hex_render (s : CoordState) (b1 b2 b3 b4 : Nat)
    (rest : List Nat) (h1 : b1 < 256) (h2 : b2 < 256) (h3 : b3 < 256)
    (h4 : b4 < 256) :
    (i2cPollStep s 10 (1 :: b1 :: b2 :: b3 :: b4 :: rest)).1.lastRfidFromUno =
      String.mk (byteHexUpperChars b1 ++ byteHexUpperChars b2 ++
        byteHexUpperChars b3 ++ byteHexUpperChars b4) := by
  have e1 := byteHex_toUpper_eq b1 h1
  have e2 := byteHex_toUpper_eq b2 h2
  have e3 := byteHex_toUpper_eq b3 h3
  have e4 := byteHex_toUpper_eq b4 h4
  simp [i2cPollStep, rfidHexString, List.map_append, e1, e2, e3, e4,
    List.append_assoc]

/-- Witness for C9: identifier bytes DE AD BE EF render as "DEADBEEF". -/
theorem c9_card_hex_render_witness :
    (i2cPollStep initCoordState 10
        [1, 222, 173, 190, 239, 0, 0, 0, 0, 0]).1.lastRfidFromUno
      = "DEADBEEF" := by
  have h := c9_card_hex_render initCoordState 222 173 190 239 [0, 0, 0, 0, 0]
    (by decide) (by decide) (by decide) (by decide)
  exact h.trans (by decide)

/-- Unsigned wraparound subtraction of two clock values that lie a known
true distance apart: when the true elapsed span x - y is less than one
wrap period, sub32 recovers it exactly, whatever the phase t0. -/
theorem sub32_shifted (t0 x y : Nat) (hyx : y ≤ x) (hlt : x - y < W32) :
    sub32 ((t0 + x) % W32) ((t0 + y) % W32) = x - y := by
  simp only [sub32, W32] at *
  omega

/-- After n ticks of the 100-unit clock, the interval-500 task's lastRun
sits at the most recent multiple-of-5 tick. -/
theorem lastRunAfter_eq (t0 : Nat) (h : t0 < W32) :
    ∀ n, lastRunAfter t0 n = clockAt t0 (5 * (n / 5)) := by
  intro n
  induction n with
  | zero =>
    simp only [lastRunAfter, clockAt, Nat.zero_div, Nat.mul_zero,
      Nat.mul_comm, Nat.add_zero]
    simp only [W32] at *
    omega
  | succ n ih =>
    have key : sub32 (clockAt t0 (n + 1)) (clockAt t0 (5 * (n / 5)))
        = 100 * (n + 1) - 100 * (5 * (n / 5)) := by
      simp only [clockAt]
      exact sub32_shifted t0 (100 * (n + 1)) (100 * (5 * (n / 5)))
        (by omega) (by simp only [W32]; omega)
    rw [lastRunAfter, ih]
    unfold gatedTick
    rw [key]
    by_cases hrun : 500 ≤ 100 * (n + 1) - 100 * (5 * (n / 5))
    · rw [if_pos hrun]
      have h5 : 5 * ((n + 1) / 5) = n + 1 := by omega
      rw [h5]
    · rw [if_neg hrun]
      have h5 : (n + 1) / 5 = n / 5 := by omega
      rw [h5]

/-- The interval-500 task body runs exactly on the positive multiples of
5 of the 100-unit clock ticks, i.e. at elapsed times 500, 1000, 1500 and
so on, for every starting phase t0 (including phases that make the clock
wrap). -/
theorem ranAt_eq (t0 : Nat) (h : t0 < W32) (n : Nat) :
    ranAt t0 n = true ↔ n % 5 = 0 ∧ n ≠ 0 := by
  cases n with
  | zero => simp [ranAt]
  | succ n =>
    have key : sub32 (clockAt t0 (n + 1)) (clockAt t0 (5 * (n / 5)))
        = 100 * (n + 1) - 100 * (5 * (n / 5)) := by
      simp only [clockAt]
      exact sub32_shifted t0 (100 * (n + 1)) (100 * (5 * (n / 5)))
        (by omega) (by simp only [W32]; omega)
    rw [ranAt, lastRunAfter_eq t0 h n]
    unfold gatedTick
    rw [key]
    split_ifs with hrun <;> simp <;> omega

/-- Claim C7: an interval-gated task runs exactly when the wraparound-safe
unsigned difference now - lastRun reaches its interval, in which case
lastRun is set to now (and left unchanged otherwise); and with interval
500 over a clock advancing in 100-unit ticks from any phase t0 — wrapping
phases included — the body runs on ticks 5, 10, 15, ... (elapsed times
500, 1000, 1500, ...) and on no intermediate tick, lastRun always resting
on the latest multiple-of-5 tick. -/
theorem c7_interval_gated_schedule (t0 : Nat) (h : t0 < W32) :
    (∀ interval lastRun now,
        ((gatedTick interval lastRun now).2 = true ↔
          interval ≤ sub32 now lastRun) ∧
        ((gatedTick interval lastRun now).2 = true →
          (gatedTick interval lastRun now).1 = now) ∧
        ((gatedTick interval lastRun now).2 = false →
          (gatedTick interval lastRun now).1 = lastRun)) ∧
    (∀ n, ranAt t0 n = true ↔ n % 5 = 0 ∧ n ≠ 0) ∧
    (∀ n, lastRunAfter t0 n = clockAt t0 (5 * (n / 5))) := by
  refine ⟨?_, fun n => ranAt_eq t0 h n, lastRunAfter_eq t0 h⟩
  intro interval lastRun now
  unfold gatedTick
  split_ifs with hg <;> simp [hg]

/-- Witness for C7 at the wrapping phase t0 = 2^32 - 300: the task runs on
tick 5 (elapsed 500, after the clock wrapped at tick 3), does not run on
tick 3, and lastRun after 5 ticks is the wrapped clock value 200. -/
theorem c7_interval_gated_schedule_witness :
    ranAt (2 ^ 32 - 300) 5 = true ∧ ranAt (2 ^ 32 - 300) 3 = false ∧
    lastRunAfter (2 ^ 32 - 300) 5 = 200 := by
  have h := c7_interval_gated_schedule (2 ^ 32 - 300) (by norm_num [W32])
  refine ⟨(h.2.1 5).mpr (by decide), ?_, ?_⟩
  · cases hb : ranAt (2 ^ 32 - 300) 3 with
    | false => rfl
    | true => exact absurd ((h.2.1 3).mp hb) (by decide)
  · rw [h.2.2 5]
    decide
